import Mathlib

/-!
Shallow embedding of the challenge-tracking bot (src/data/crud.py and
src/bot/challenge.py).

Timestamps are modelled as natural numbers counting seconds since the Unix
epoch in UTC.  The source stores ISO-8601 strings of timezone-aware UTC
datetimes; for such strings lexicographic order coincides with chronological
order, and SQLite date() extracts the calendar date, modelled here as the
day number t / 86400.

Python exceptions are modelled with an explicit error type: each repository
or handler function returns its result together with the storage / cache
state that exists when it returns or when the exception escapes.
-/

/-- Errors raised by the embedded code.
  `challengeResponded` models the ChallengeResponded exception (crud.py:10),
  `roleExists` models RoleExists (crud.py:14),
  `notFound` models the TypeError raised by Challenge(*row) when row is None,
  i.e. respond_to_challenge called for a message id with no stored row
  (crud.py:83) — the source has no dedicated NotFound exception class,
  `typeError` models TypeError raised in challenge.py handler code,
  `keyError` models KeyError from del on a missing dict key. -/
inductive PyExn where
  | challengeResponded
  | roleExists
  | notFound
  | typeError
  | keyError
deriving Repr, DecidableEq

/-- Row of the challenges table (crud.py, dataclass Challenge).
`created` and `responded_at` are UTC timestamps in seconds since the epoch. -/
structure Challenge where
  id : Nat
  created : Nat
  guild_id : Nat
  text_channel_id : Nat
  message_id : Nat
  challenge_type : String
  responding_member_id : Option Nat := none
  responded_at : Option Nat := none
deriving Repr, DecidableEq

/-- Derived property is_open (crud.py:44): the challenge has no response. -/
def Challenge.is_open (c : Challenge) : Bool :=
  c.responded_at.isNone

/-- Row of the match_type_roles table (crud.py, dataclass MatchTypeRole). -/
structure MatchTypeRole where
  id : Nat
  guild_id : Nat
  match_type : String
  role_id : Nat
deriving Repr, DecidableEq

/-- The durable SQLite database: both tables in rowid order, plus the next
auto-assigned surrogate ids. -/
structure DB where
  challenges : List Challenge
  roles : List MatchTypeRole
  nextChallengeId : Nat
  nextRoleId : Nat
deriving Repr, DecidableEq

/-- Python str.lower for the ASCII letters, which is all the source applies
it to (challenge type strings and the English marker/accept words). -/
def lowerCh (c : Char) : Char :=
  if 'A' ≤ c ∧ c ≤ 'Z' then Char.ofNat (c.toNat + 32) else c

/-- Python s.lower(). -/
def strLower (s : String) : String :=
  ⟨s.data.map lowerCh⟩

def secondsPerDay : Nat := 86400

/-- SQLite date() over a stored UTC timestamp: the calendar day number. -/
def calendarDate (t : Nat) : Nat :=
  t / secondsPerDay

/-- insert_challenge (crud.py:63): inserts a new row with the challenge type
lower-cased; created defaults to now when no created_at is passed.  Returns
the inserted row (RETURNING *) and the new database state. -/
def insert_challenge (db : DB) (guild_id text_channel_id message_id : Nat)
    (challenge_type : String) (created_at : Option Nat) (now : Nat) :
    Challenge × DB :=
  let created := created_at.getD now
  let c : Challenge :=
    { id := db.nextChallengeId, created := created, guild_id := guild_id
      text_channel_id := text_channel_id, message_id := message_id
      challenge_type := strLower challenge_type }
  (c, { db with challenges := db.challenges ++ [c]
                nextChallengeId := db.nextChallengeId + 1 })

/-- The guard `if row and row[0] is not None` of respond_to_challenge
(crud.py:75): the selected row exists and already has a responder. -/
def rowHasResponse : Option Challenge → Bool
  | some r => r.responding_member_id.isSome
  | none => false

/-- The SET clause of the UPDATE in respond_to_challenge (crud.py:79). -/
def respondUpdate (member_id now : Nat) (c : Challenge) : Challenge :=
  { c with responded_at := some now, responding_member_id := some member_id }

/-- respond_to_challenge (crud.py:72).  Mirrors the source line by line:
select the row for the message id; if a row exists and already carries a
responding_member_id, raise ChallengeResponded before any write; otherwise
run the UPDATE (which touches every row with that message_id, i.e. nothing
when no such row exists) and fetch the first returned row; when the UPDATE
returned no row, Challenge(*None) raises a TypeError, modelled as notFound.
The returned DB is the state holding when the call returns or raises. -/
def respond_to_challenge (db : DB) (challenge_message_id member_id now : Nat) :
    Except PyExn Challenge × DB :=
  let row := db.challenges.find? (fun c => c.message_id == challenge_message_id)
  if rowHasResponse row then
    (.error .challengeResponded, db)
  else
    let challenges := db.challenges.map (fun c =>
      if c.message_id == challenge_message_id then respondUpdate member_id now c
      else c)
    let db' : DB := { db with challenges := challenges }
    match challenges.find? (fun c => c.message_id == challenge_message_id) with
    | some updated => (.ok updated, db')
    | none => (.error .notFound, db')

/-- fetch_challenge (crud.py:86): point lookup by message id, first row wins. -/
def fetch_challenge (db : DB) (message_id : Nat) : Option Challenge :=
  db.challenges.find? (fun c => c.message_id == message_id)

/-- fetch_all_challenges (crud.py:95). -/
def fetch_all_challenges (db : DB) (unresponded_only : Bool) : List Challenge :=
  if unresponded_only then
    db.challenges.filter (fun c => c.responded_at.isNone)
  else
    db.challenges

/-- fetch_roles (crud.py:107). -/
def fetch_roles (db : DB) : List MatchTypeRole :=
  db.roles

/-- Modelled from the spec: the schema file data/scripts/create.sql is not in
the sources; per the spec the triple (guild_id, match_type, role_id) of
match_type_roles carries a unique constraint, so inserting a duplicate triple
raises IntegrityError.  String comparison is exact (binary), as the spec
states the constraint with no case folding. -/
def tripleExists (db : DB) (guild_id : Nat) (match_type : String) (role_id : Nat) : Bool :=
  db.roles.any (fun r =>
    r.guild_id == guild_id && r.match_type == match_type && r.role_id == role_id)

/-- create_match_type_role (crud.py:116): inserts the mapping as given (no
case normalisation); an IntegrityError from the unique triple constraint is
converted to RoleExists, with no mutation. -/
def create_match_type_role (db : DB) (guild_id : Nat) (match_type : String)
    (role_id : Nat) : Except PyExn MatchTypeRole × DB :=
  if tripleExists db guild_id match_type role_id then
    (.error .roleExists, db)
  else
    let r : MatchTypeRole :=
      { id := db.nextRoleId, guild_id := guild_id
        match_type := match_type, role_id := role_id }
    (.ok r, { db with roles := db.roles ++ [r], nextRoleId := db.nextRoleId + 1 })

/-- delete_match_type_role (crud.py:127): DELETE by id; no error when no row
matches. -/
def delete_match_type_role (db : DB) (row_id : Nat) : DB :=
  { db with roles := db.roles.filter (fun r => !(r.id == row_id)) }

/-- fetch_last_days_completed_challenges (crud.py:133): rows whose guild
matches the optional filter, whose created calendar date lies between
date(now - days) and date(now) (SQL BETWEEN, inclusive on both ends), and
whose responded_at is not null. -/
def fetch_last_days_completed_challenges (db : DB) (guild_id : Option Nat)
    (days now : Nat) : List Challenge :=
  let back := now - days * secondsPerDay
  let lo := calendarDate back
  let hi := calendarDate now
  db.challenges.filter (fun c =>
    (match guild_id with
     | none => true
     | some g => c.guild_id == g)
    && decide (lo ≤ calendarDate c.created)
    && decide (calendarDate c.created ≤ hi)
    && c.responded_at.isSome)

/-! ## The bot layer: src/bot/challenge.py -/

/-- A role of a guild, as exposed by the chat platform client. -/
structure Role where
  id : Nat
  mention : String
deriving Repr, DecidableEq

/-- A guild known to the bot, with its current role list. -/
structure Guild where
  id : Nat
  roles : List Role
deriving Repr, DecidableEq

/-- An inbound chat message, restricted to the fields challenge.py reads;
`reference` is the id of the replied-to message, when the message is a
reply. -/
structure Message where
  author_id : Nat
  content : String
  message_id : Nat
  reference : Option Nat
deriving Repr, DecidableEq

/-- A message sent through the chat client (channel send or reply). -/
structure Sent where
  content : String
deriving Repr, DecidableEq

/-- The mutable state of ChallengeCog (challenge.py:35): the in-memory cache
of challenges keyed by message id and the role mappings keyed by guild id
(a missing guild key reads as the empty list, as the source reads it with
get(guild_id, [])). -/
structure Cog where
  challenges : Nat → Option Challenge
  matchRoles : Nat → List MatchTypeRole

/-- discord.utils.get(roles, id=i): first element with the given id. -/
def utilsGetRole (roles : List Role) (i : Nat) : Option Role :=
  roles.find? (fun r => r.id == i)

/-- get_guild_roles (challenge.py:111): resolves the cached mappings of the
guild (filtered by match type when one is given) into platform roles,
dropping the ones that no longer resolve. -/
def get_guild_roles (cog : Cog) (guild : Guild) (match_type : Option String) :
    List Role :=
  let mrs : List MatchTypeRole := cog.matchRoles guild.id
  let resolved : List (Option Role) :=
    match match_type with
    | some mt => (mrs.filter (fun mr => mr.match_type == mt)).map
        (fun mr => utilsGetRole guild.roles mr.role_id)
    | none => mrs.map (fun mr => utilsGetRole guild.roles mr.role_id)
  resolved.filterMap id

/-- Character-list test: the first list starts the second. -/
def startsCh : List Char → List Char → Bool
  | [], _ => true
  | _ :: _, [] => false
  | a :: as, b :: bs => a == b && startsCh as bs

/-- Character-list substring test, used for the Python in operator. -/
def containsSubCh (pat : List Char) : List Char → Bool
  | [] => pat.isEmpty
  | c :: cs => startsCh pat (c :: cs) || containsSubCh pat cs

/-- Python: pat in hay. -/
def containsSub (hay pat : String) : Bool :=
  containsSubCh pat.toList hay.toList

/-- is_match_request (challenge.py:70): the lower-cased content contains the
marker string. -/
def is_match_request (content : String) : Bool :=
  containsSub (strLower content) "new match request received!"

/-- The rest of the current line: MATCH_TYPE_REGEX uses the dot, which does
not match a newline. -/
def lineSeg : List Char → List Char
  | [] => []
  | c :: cs => if c == '\n' then [] else c :: lineSeg cs

/-- The greedy backtracking of the regex part ".* (Solo Ultra|Solo)": the
group captured at the rightmost position of the segment where a space
followed by "Solo" matches, preferring the alternative "Solo Ultra" there. -/
def lastSoloGroup : List Char → Option String
  | [] => none
  | c :: cs =>
    match lastSoloGroup cs with
    | some g => some g
    | none =>
      if startsCh " Solo Ultra".toList (c :: cs) then some "Solo Ultra"
      else if startsCh " Solo".toList (c :: cs) then some "Solo"
      else none

/-- re.search(MATCH_TYPE_REGEX, content) with MATCH_TYPE_REGEX =
r"Type: .* (Solo Ultra|Solo)" (challenge.py:23), returning group 1: the
leftmost occurrence of "Type: " whose line still holds " Solo" later on
yields the match, and the greedy dot-star captures the last such group of
that line; none when the pattern matches nowhere. -/
def reSearchGroup : List Char → Option String
  | [] => none
  | c :: cs =>
    if startsCh "Type: ".toList (c :: cs) then
      match lastSoloGroup (lineSeg ((c :: cs).drop 6)) with
      | some g => some g
      | none => reSearchGroup cs
    else reSearchGroup cs

/-- The events dispatched on the internal bus by the handlers. -/
inductive Dispatch where
  | newChallenge (message_id : Nat) (match_type : String)
  | challengeAccepted (challenge : Challenge) (message_id : Nat)
deriving Repr, DecidableEq

/-- on_message (challenge.py:241): skip the bot itself; a recognised match
request extracts the type with MATCH_TYPE_REGEX and dispatches
new_challenge — when the regex finds no match, match_type[1] subscripts
None and raises TypeError; otherwise a reply to a cached challenge whose
content contains "accept" dispatches challenge_accepted. -/
def on_message (cog : Cog) (bot_user_id : Nat) (m : Message) :
    Except PyExn (List Dispatch) :=
  if m.author_id == bot_user_id then .ok []
  else if is_match_request m.content then
    match reSearchGroup m.content.toList with
    | none => .error .typeError
    | some g => .ok [.newChallenge m.message_id g]
  else
    match m.reference.bind cog.challenges with
    | some challenge =>
      if containsSub (strLower m.content) "accept" then
        .ok [.challengeAccepted challenge m.message_id]
      else .ok []
    | none => .ok []

/-- The timeout check at the end of on_new_challenge (challenge.py:204-214),
run after the fixed delay: read the challenge from the cache; when it is
absent, the fallback challenge = await fetch_challenge(message.id)
(challenge.py:208) omits the database connection argument, so Python raises
TypeError before any query runs, and neither the Repository read, the
silent return, nor the dispatch is reached.  When the cached record is
found, the challenge_timeout event is dispatched only while it is open. -/
def timeout_check (cog : Cog) (message_id : Nat) :
    Except PyExn (Cog × Option Challenge) :=
  match cog.challenges message_id with
  | none => .error .typeError
  | some challenge =>
    .ok (cog, if challenge.is_open then some challenge else none)

/-- answer_challenge (challenge.py:82): delegate to respond_to_challenge;
on success overwrite the cache entry with the updated record.  An exception
propagates before the cache assignment runs, so the cache is returned
untouched in that case. -/
def answer_challenge (db : DB) (cog : Cog) (challenge : Challenge)
    (member_id now : Nat) : Except PyExn Unit × DB × Cog :=
  match respond_to_challenge db challenge.message_id member_id now with
  | (.error e, db') => (.error e, db', cog)
  | (.ok updated, db') =>
    (.ok (), db',
      { cog with challenges := fun m =>
          if m == updated.message_id then some updated else cog.challenges m })

/-- on_challenge_accepted (challenge.py:227): record the acceptance, then
acknowledge with "I see you!".  An exception from answer_challenge
propagates out of the handler and the acknowledgement is never sent. -/
def on_challenge_accepted (db : DB) (cog : Cog) (challenge : Challenge)
    (author_id now : Nat) (author_mention : String) :
    Except PyExn Unit × DB × Cog × List Sent :=
  match answer_challenge db cog challenge author_id now with
  | (.error e, db', cog') => (.error e, db', cog', [])
  | (.ok _, db', cog') =>
    (.ok (), db', cog', [⟨"I see you! " ++ author_mention⟩])

/-- on_challenge_timeout (challenge.py:216): del the cache entry (KeyError
when absent), resolve the guild, and when it is found reply to the original
message mentioning the roles registered for the challenge type of the
challenge; the reply is sent even when no role resolves. -/
def on_challenge_timeout (bot_guilds : List Guild) (cog : Cog)
    (challenge : Challenge) : Except PyExn Unit × Cog × List Sent :=
  match cog.challenges challenge.message_id with
  | none => (.error .keyError, cog, [])
  | some _ =>
    let cog' : Cog :=
      { cog with challenges := fun m =>
          if m == challenge.message_id then none else cog.challenges m }
    match bot_guilds.find? (fun g => g.id == challenge.guild_id) with
    | none => (.ok (), cog', [])
    | some guild =>
      let roles := get_guild_roles cog' guild (some challenge.challenge_type)
      let role_mentions := " ".intercalate (roles.map (fun r => r.mention))
      (.ok (), cog', [⟨role_mentions ++ " This order is still up!"⟩])

/-! ## Concrete fixtures used by witnesses and counterexamples -/

/-- An open stored challenge. -/
def exOpen : Challenge :=
  { id := 1, created := 100, guild_id := 10, text_channel_id := 20,
    message_id := 30, challenge_type := "solo" }

/-- A database holding exactly the open challenge. -/
def exDbOpen : DB :=
  { challenges := [exOpen], roles := [], nextChallengeId := 2, nextRoleId := 1 }


/-- The empty in-memory cache. -/
def emptyCog : Cog := { challenges := fun _ => none, matchRoles := fun _ => [] }

/-- The open challenge after member 7 responded at time 200. -/
def exResponded : Challenge :=
  { exOpen with responding_member_id := some 7, responded_at := some 200 }

/-- A database holding only the responded challenge. -/
def exDbResp : DB :=
  { challenges := [exResponded], roles := [], nextChallengeId := 2, nextRoleId := 1 }

/-- A cache holding the responded challenge under its message id. -/
def exCogResp : Cog :=
  { challenges := fun m => if m == 30 then some exResponded else none,
    matchRoles := fun _ => [] }

/-- An empty database. -/
def exDbEmpty : DB :=
  { challenges := [], roles := [], nextChallengeId := 1, nextRoleId := 1 }

/-- A message whose content passes is_match_request but does not match
MATCH_TYPE_REGEX. -/
def exBadRequest : Message :=
  { author_id := 5, content := "New match request received!", message_id := 77,
    reference := none }

/-- A guild role, its mapping record, and a cache that registers it for the
challenge type of the open challenge. -/
def exRole : Role := { id := 500, mention := "<@&500>" }

def exGuild : Guild := { id := 10, roles := [exRole] }

def exMtr : MatchTypeRole :=
  { id := 1, guild_id := 10, match_type := "solo", role_id := 500 }

def exCogTimeout : Cog :=
  { challenges := fun m => if m == 30 then some exOpen else none,
    matchRoles := fun g => if g == 10 then [exMtr] else [] }

/-- An answered challenge created the given number of days before the
reference instant 864000 (day 10, 00:00 UTC). -/
def exHist (mid daysAgo : Nat) : Challenge :=
  { id := mid, created := 864000 - daysAgo * 86400, guild_id := 10,
    text_channel_id := 20, message_id := mid, challenge_type := "solo",
    responding_member_id := some 7, responded_at := some 864000 }

/-- The history example of the spec: answered challenges created 5, 3, 2, 1
and 0 days ago. -/
def exDbHist : DB :=
  { challenges := [exHist 1 5, exHist 2 3, exHist 3 2, exHist 4 1, exHist 5 0],
    roles := [], nextChallengeId := 6, nextRoleId := 1 }

/-- The history window as the spec words it: guild filter match, creation
calendar date within the trailing days window inclusive on both ends, and a
recorded response. -/
def completedInWindow (guild_id : Option Nat) (days now : Nat) (c : Challenge) : Bool :=
  (match guild_id with
   | none => true
   | some g => c.guild_id == g)
  && decide (calendarDate now - days ≤ calendarDate c.created)
  && decide (calendarDate c.created ≤ calendarDate now)
  && c.responded_at.isSome

/-! ## Helper lemmas about the embedded list operations -/

theorem find?_respondUpdate (mid member now : Nat) (l : List Challenge) :
    ((l.map fun c =>
        if c.message_id == mid then respondUpdate member now c else c).find?
      fun c => c.message_id == mid) =
      (l.find? fun c => c.message_id == mid).map (respondUpdate member now) := by
  induction l with
  | nil => rfl
  | cons a t ih =>
    by_cases h : (a.message_id == mid) = true
    · simp only [List.map_cons, if_pos h]
      have hu : ((respondUpdate member now a).message_id == mid) = true := h
      rw [@List.find?_cons_of_pos _ (fun c => c.message_id == mid)
            (respondUpdate member now a) _ hu,
          @List.find?_cons_of_pos _ (fun c => c.message_id == mid) a _ h,
          Option.map_some']
    · simp only [List.map_cons, if_neg h]
      rw [@List.find?_cons_of_neg _ (fun c => c.message_id == mid) a _ h,
          @List.find?_cons_of_neg _ (fun c => c.message_id == mid) a _ h, ih]

theorem map_respondUpdate_of_none (mid member now : Nat) (l : List Challenge)
    (h : (l.find? fun c => c.message_id == mid) = none) :
    (l.map fun c =>
      if c.message_id == mid then respondUpdate member now c else c) = l := by
  have h' := List.find?_eq_none.mp h
  have : (l.map fun c =>
      if c.message_id == mid then respondUpdate member now c else c) =
      l.map id := by
    apply List.map_congr_left
    intro a ha
    simp only [id, if_neg (h' a ha)]
  rw [this, List.map_id]

/-! ## Claim theorems -/

theorem respond_to_challenge_already (db : DB) (r : Challenge)
    (mid member now : Nat)
    (hfind : fetch_challenge db mid = some r)
    (hresp : r.responding_member_id.isSome = true) :
    respond_to_challenge db mid member now = (.error .challengeResponded, db) := by
  have h' : (db.challenges.find? fun c => c.message_id == mid) = some r := hfind
  have hguard : rowHasResponse (some r) = true := hresp
  simp only [respond_to_challenge, h', hguard, if_true]

theorem create_match_type_role_exists (db : DB) (g rid : Nat) (mt : String)
    (h : tripleExists db g mt rid = true) :
    create_match_type_role db g mt rid = (.error .roleExists, db) := by
  simp only [create_match_type_role, h, if_true]

theorem create_match_type_role_free (db : DB) (g rid : Nat) (mt : String)
    (h : tripleExists db g mt rid = false) :
    create_match_type_role db g mt rid =
      (.ok { id := db.nextRoleId, guild_id := g, match_type := mt, role_id := rid },
       { db with
         roles := db.roles ++
           [{ id := db.nextRoleId, guild_id := g, match_type := mt, role_id := rid }]
         nextRoleId := db.nextRoleId + 1 }) := by
  simp only [create_match_type_role, h, Bool.false_eq_true, if_false]

/-- C1: for a stored challenge with a given messageId that has no recorded
responder yet, calling respond_to_challenge twice sequentially succeeds on
the first call, fails with ChallengeResponded (AlreadyResponded) on the
second, and afterwards the stored responding_member_id is the first caller
id, the second call leaving the database untouched. -/
theorem respond_to_challenge_twice (db : DB) (r : Challenge)
    (mid a b now1 now2 : Nat)
    (hfind : fetch_challenge db mid = some r)
    (hopen : r.responding_member_id = none) :
    (respond_to_challenge db mid a now1).1 = .ok (respondUpdate a now1 r) ∧
    fetch_challenge (respond_to_challenge db mid a now1).2 mid =
      some (respondUpdate a now1 r) ∧
    (respondUpdate a now1 r).responding_member_id = some a ∧
    respond_to_challenge (respond_to_challenge db mid a now1).2 mid b now2 =
      (.error .challengeResponded, (respond_to_challenge db mid a now1).2) := by
  have h' : (db.challenges.find? fun c => c.message_id == mid) = some r := hfind
  have hfr := find?_respondUpdate mid a now1 db.challenges
  rw [h'] at hfr
  have hguard : rowHasResponse (some r) = false := by
    simp [rowHasResponse, hopen]
  have e1 : respond_to_challenge db mid a now1 =
      (.ok (respondUpdate a now1 r),
       { db with challenges := db.challenges.map fun c =>
          if c.message_id == mid then respondUpdate a now1 c else c }) := by
    simp only [respond_to_challenge, h', hguard, Bool.false_eq_true, if_false,
      hfr, Option.map_some']
  have e2 : fetch_challenge (respond_to_challenge db mid a now1).2 mid =
      some (respondUpdate a now1 r) := by
    rw [e1]
    exact hfr.trans (Option.map_some' r (respondUpdate a now1))
  exact ⟨by rw [e1], e2, rfl,
    respond_to_challenge_already _ _ mid b now2 e2 rfl⟩

/-- Witness for C1: the two-call scenario on the concrete open challenge. -/
theorem respond_to_challenge_twice_witness :
    fetch_challenge exDbOpen 30 = some exOpen ∧
    exOpen.responding_member_id = none ∧
    ((respond_to_challenge exDbOpen 30 7 200).1 = .ok (respondUpdate 7 200 exOpen) ∧
     fetch_challenge (respond_to_challenge exDbOpen 30 7 200).2 30 =
       some (respondUpdate 7 200 exOpen) ∧
     (respondUpdate 7 200 exOpen).responding_member_id = some 7 ∧
     respond_to_challenge (respond_to_challenge exDbOpen 30 7 200).2 30 8 300 =
       (.error .challengeResponded, (respond_to_challenge exDbOpen 30 7 200).2)) :=
  ⟨rfl, rfl, respond_to_challenge_twice exDbOpen exOpen 30 7 8 200 300 rfl rfl⟩

/-- C2: when no stored challenge has the given messageId,
respond_to_challenge fails (the guard is skipped, the UPDATE matches no row
and Challenge(*None) raises, modelled as notFound) and the database is
returned unchanged. -/
theorem respond_to_challenge_not_found (db : DB) (mid member now : Nat)
    (h : fetch_challenge db mid = none) :
    respond_to_challenge db mid member now = (.error .notFound, db) := by
  have h' : (db.challenges.find? fun c => c.message_id == mid) = none := h
  have hmap := map_respondUpdate_of_none mid member now db.challenges h'
  simp only [respond_to_challenge, h', rowHasResponse, Bool.false_eq_true,
    if_false, hmap]

/-- Witness for C2 at a messageId with no stored row. -/
theorem respond_to_challenge_not_found_witness :
    fetch_challenge exDbOpen 999 = none ∧
    respond_to_challenge exDbOpen 999 5 100 = (.error .notFound, exDbOpen) :=
  ⟨rfl, respond_to_challenge_not_found exDbOpen 999 5 100 rfl⟩

/-- C9: inserting a challenge and fetching it back by messageId returns the
very record the insert produced, whose fields are the insert arguments
(with the challenge type lower-cased and no response recorded) except for
the server-assigned surrogate id. -/
theorem insert_then_fetch (db : DB) (g tc mid now : Nat) (ct : String)
    (ca : Option Nat) (h : fetch_challenge db mid = none) :
    fetch_challenge (insert_challenge db g tc mid ct ca now).2 mid =
      some (insert_challenge db g tc mid ct ca now).1 ∧
    (insert_challenge db g tc mid ct ca now).1 =
      { id := db.nextChallengeId, created := ca.getD now, guild_id := g
        text_channel_id := tc, message_id := mid
        challenge_type := strLower ct, responding_member_id := none
        responded_at := none } := by
  have h' : (db.challenges.find? fun c => c.message_id == mid) = none := h
  refine ⟨?_, rfl⟩
  show ((db.challenges ++ [(insert_challenge db g tc mid ct ca now).1]).find?
    fun c => c.message_id == mid) = _
  rw [List.find?_append, h']
  simp [insert_challenge]

/-- Witness for C9 with concrete insert arguments. -/
theorem insert_then_fetch_witness :
    fetch_challenge exDbOpen 40 = none ∧
    (fetch_challenge (insert_challenge exDbOpen 11 21 40 "Solo Ultra" none 500).2 40 =
       some (insert_challenge exDbOpen 11 21 40 "Solo Ultra" none 500).1 ∧
     (insert_challenge exDbOpen 11 21 40 "Solo Ultra" none 500).1 =
      { id := 2, created := 500, guild_id := 11
        text_channel_id := 21, message_id := 40
        challenge_type := "solo ultra", responding_member_id := none
        responded_at := none }) :=
  ⟨rfl, (insert_then_fetch exDbOpen 11 21 40 500 "Solo Ultra" none rfl).1,
    by decide⟩

/-- C3 (code bug): a message recognised as a match request, from which the
type regex extracts no match, makes on_message raise TypeError (the source
subscripts the None returned by re.search) instead of treating the message
as not a request: the handler does not complete cleanly and dispatches
nothing. -/
theorem on_message_unparsable_request_raises :
    is_match_request exBadRequest.content = true ∧
    reSearchGroup exBadRequest.content.toList = none ∧
    on_message emptyCog 99 exBadRequest = .error .typeError :=
  ⟨by decide, by decide, rfl⟩

/-- C4 (code bug): at timeout-fire time with the challenge absent from the
in-memory cache, the Repository fallback itself raises TypeError because
fetch_challenge is called without its database connection argument
(challenge.py:208), so the silent-abandon path is unreachable.  When the
cached record is found and already answered the fire is a no-op and no
timeout event is dispatched. -/
theorem timeout_check_behaviour :
    timeout_check emptyCog 1 = .error .typeError ∧
    timeout_check exCogResp 30 = .ok (exCogResp, none) :=
  ⟨rfl, rfl⟩

/-- C5 counterexample: at a concrete duplicate acceptance the engine does
not recover locally: ChallengeResponded escapes on_challenge_accepted, so
the failure IS propagated, contrary to the claim. -/
theorem on_challenge_accepted_duplicate_escape :
    (on_challenge_accepted exDbResp exCogResp exResponded 8 300 "@m").1 =
      .error .challengeResponded := rfl

/-- C5 amended: on an acceptance attempt for a challenge that already has a
recorded response, ChallengeResponded propagates out of the handler uncaught
(there is no local recovery); nevertheless no second acknowledgement is
sent, the database is untouched, and the in-memory cache is not modified. -/
theorem on_challenge_accepted_duplicate (db : DB) (cog : Cog)
    (ch r : Challenge) (author now : Nat) (mention : String)
    (hfind : fetch_challenge db ch.message_id = some r)
    (hresp : r.responding_member_id.isSome = true) :
    on_challenge_accepted db cog ch author now mention =
      (.error .challengeResponded, db, cog, []) := by
  unfold on_challenge_accepted answer_challenge
  rw [respond_to_challenge_already db r ch.message_id author now hfind hresp]

/-- Witness for the amended C5 at the concrete responded challenge. -/
theorem on_challenge_accepted_duplicate_witness :
    fetch_challenge exDbResp 30 = some exResponded ∧
    exResponded.responding_member_id.isSome = true ∧
    on_challenge_accepted exDbResp exCogResp exResponded 8 300 "@r" =
      (.error .challengeResponded, exDbResp, exCogResp, []) :=
  ⟨rfl, rfl,
    on_challenge_accepted_duplicate exDbResp exCogResp exResponded exResponded
      8 300 "@r" rfl rfl⟩

/-- C6: when the timeout transition fires for a cached challenge whose guild
the bot can resolve, the challenge is removed from the open-cache (other
entries untouched), the roles registered for its (guildId, challengeType)
pair are looked up, and a reply mentioning them is sent; an empty resolved
role set still produces the reply, with an empty mention text. -/
theorem on_challenge_timeout_notifies (bot_guilds : List Guild) (cog : Cog)
    (ch c0 : Challenge) (guild : Guild)
    (hcache : cog.challenges ch.message_id = some c0)
    (hguild : bot_guilds.find? (fun g => g.id == ch.guild_id) = some guild) :
    (on_challenge_timeout bot_guilds cog ch).1 = .ok () ∧
    (on_challenge_timeout bot_guilds cog ch).2.1.challenges ch.message_id = none ∧
    (∀ m, m ≠ ch.message_id →
      (on_challenge_timeout bot_guilds cog ch).2.1.challenges m = cog.challenges m) ∧
    (on_challenge_timeout bot_guilds cog ch).2.2 =
      [⟨" ".intercalate ((get_guild_roles cog guild (some ch.challenge_type)).map
          (fun r => r.mention)) ++ " This order is still up!"⟩] ∧
    (get_guild_roles cog guild (some ch.challenge_type) = [] →
      (on_challenge_timeout bot_guilds cog ch).2.2 =
        [⟨" This order is still up!"⟩]) := by
  have e : on_challenge_timeout bot_guilds cog ch =
      (.ok (),
       { challenges := fun m =>
           if m == ch.message_id then none else cog.challenges m,
         matchRoles := cog.matchRoles },
       [⟨" ".intercalate ((get_guild_roles cog guild (some ch.challenge_type)).map
          (fun r => r.mention)) ++ " This order is still up!"⟩]) := by
    simp only [on_challenge_timeout, hcache, hguild]
    rfl
  refine ⟨by rw [e], ?_, ?_, by rw [e], ?_⟩
  · rw [e]
    simp
  · intro m hm
    rw [e]
    show (if m == ch.message_id then none else cog.challenges m) = cog.challenges m
    rw [if_neg (by simpa using hm)]
  · intro h0
    rw [e, h0]
    rfl

/-- Witness for C6 with one registered, resolvable role. -/
theorem on_challenge_timeout_notifies_witness :
    exCogTimeout.challenges 30 = some exOpen ∧
    [exGuild].find? (fun g => g.id == exOpen.guild_id) = some exGuild ∧
    (on_challenge_timeout [exGuild] exCogTimeout exOpen).1 = .ok () ∧
    (on_challenge_timeout [exGuild] exCogTimeout exOpen).2.1.challenges 30 = none ∧
    (on_challenge_timeout [exGuild] exCogTimeout exOpen).2.2 =
      [⟨"<@&500> This order is still up!"⟩] := by
  have T := on_challenge_timeout_notifies [exGuild] exCogTimeout exOpen exOpen
    exGuild rfl rfl
  exact ⟨rfl, rfl, T.1, T.2.1, (T.2.2.2.1).trans (by decide)⟩

/-- C7: the completed-challenges history query returns exactly the rows with
a recorded response whose creation calendar date lies in the trailing
window, inclusive on both ends by calendar date (date(now) - days up to
date(now)), filtered by guild when one is given. -/
theorem fetch_completed_window (db : DB) (guild_id : Option Nat)
    (days now : Nat) (h : days * secondsPerDay ≤ now) :
    fetch_last_days_completed_challenges db guild_id days now =
      db.challenges.filter (completedInWindow guild_id days now) := by
  have e : calendarDate (now - days * secondsPerDay) = calendarDate now - days := by
    unfold calendarDate
    rw [mul_comm days secondsPerDay]
    exact Nat.sub_mul_div now secondsPerDay days
      (by rwa [mul_comm secondsPerDay days])
  simp only [fetch_last_days_completed_challenges, e]
  rfl

/-- Witness for C7: the spec example — answered challenges created 5, 3, 2,
1 and 0 days before now with days = 3 yield exactly the last four. -/
theorem fetch_completed_window_witness :
    3 * secondsPerDay ≤ 864000 ∧
    fetch_last_days_completed_challenges exDbHist none 3 864000 =
      [exHist 2 3, exHist 3 2, exHist 4 1, exHist 5 0] :=
  ⟨by decide,
    (fetch_completed_window exDbHist none 3 864000 (by decide)).trans (by decide)⟩

/-- C8: creating a role-mapping triple on a database without it succeeds and
assigns the next surrogate id; creating it again fails with RoleExists and
leaves storage unchanged; deletion is idempotent and deleting an id with no
row is a no-op; after deleting the created row the same triple can be
created again. -/
theorem create_role_mapping_lifecycle (db : DB) (g rid : Nat) (mt : String)
    (h : tripleExists db g mt rid = false) :
    (create_match_type_role db g mt rid).1 =
      .ok { id := db.nextRoleId, guild_id := g, match_type := mt, role_id := rid } ∧
    create_match_type_role (create_match_type_role db g mt rid).2 g mt rid =
      (.error .roleExists, (create_match_type_role db g mt rid).2) ∧
    (∀ db0 : DB, ∀ i : Nat,
      delete_match_type_role (delete_match_type_role db0 i) i =
        delete_match_type_role db0 i) ∧
    (∀ db0 : DB, ∀ i : Nat, (db0.roles.any fun x => x.id == i) = false →
      delete_match_type_role db0 i = db0) ∧
    (create_match_type_role
        (delete_match_type_role (create_match_type_role db g mt rid).2
          db.nextRoleId) g mt rid).1 =
      .ok { id := (create_match_type_role db g mt rid).2.nextRoleId,
            guild_id := g, match_type := mt, role_id := rid } := by
  have e1 := create_match_type_role_free db g rid mt h
  have hany := List.any_eq_false.mp h
  have ht : tripleExists (create_match_type_role db g mt rid).2 g mt rid = true := by
    rw [e1]
    simp [tripleExists, List.any_append]
  have hdel : tripleExists
      (delete_match_type_role (create_match_type_role db g mt rid).2
        db.nextRoleId) g mt rid = false := by
    rw [e1]
    simp only [delete_match_type_role, tripleExists, List.any_eq_false]
    intro x hx
    have hx' := List.mem_filter.mp hx
    rcases List.mem_append.mp hx'.1 with h1 | h2
    · exact hany x h1
    · have hxr := List.mem_singleton.mp h2
      subst hxr
      simp at hx'
  refine ⟨by rw [e1], create_match_type_role_exists _ g rid mt ht, ?_, ?_, ?_⟩
  · intro db0 i
    simp [delete_match_type_role, List.filter_filter]
  · intro db0 i h0
    have hall := List.any_eq_false.mp h0
    have : db0.roles.filter (fun r => !(r.id == i)) = db0.roles :=
      List.filter_eq_self.mpr (by intro a ha; simpa using hall a ha)
    simp only [delete_match_type_role, this]
  · rw [create_match_type_role_free _ g rid mt hdel]
    rfl

/-- Witness for C8: the spec example triple (1234, "solo", 5678) on the empty
database. -/
theorem create_role_mapping_lifecycle_witness :
    tripleExists exDbEmpty 1234 "solo" 5678 = false ∧
    (create_match_type_role exDbEmpty 1234 "solo" 5678).1 =
      .ok { id := 1, guild_id := 1234, match_type := "solo", role_id := 5678 } ∧
    create_match_type_role
        (create_match_type_role exDbEmpty 1234 "solo" 5678).2 1234 "solo" 5678 =
      (.error .roleExists, (create_match_type_role exDbEmpty 1234 "solo" 5678).2) ∧
    delete_match_type_role (delete_match_type_role exDbEmpty 3) 3 =
      delete_match_type_role exDbEmpty 3 ∧
    delete_match_type_role exDbEmpty 3 = exDbEmpty ∧
    (create_match_type_role
        (delete_match_type_role
          (create_match_type_role exDbEmpty 1234 "solo" 5678).2 1)
        1234 "solo" 5678).1 =
      .ok { id := 2, guild_id := 1234, match_type := "solo", role_id := 5678 } := by
  have T := create_role_mapping_lifecycle exDbEmpty 1234 5678 "solo" rfl
  exact ⟨rfl, T.1, T.2.1, T.2.2.1 exDbEmpty 3, T.2.2.2.1 exDbEmpty 3 rfl,
    T.2.2.2.2⟩

/-- C10: create_match_type_role stores match_type exactly as given, with no
case normalisation — unlike insert_challenge, which lower-cases the
challenge type — so two mappings whose match_type values differ only in
letter case are distinct triples and creating both succeeds. -/
theorem create_role_case_significant (db : DB) (g rid : Nat) (mt1 mt2 : String)
    (hne : mt1 ≠ mt2) (hcase : strLower mt1 = strLower mt2)
    (h1 : tripleExists db g mt1 rid = false)
    (h2 : tripleExists db g mt2 rid = false) :
    (create_match_type_role db g mt1 rid).1 =
      .ok { id := db.nextRoleId, guild_id := g, match_type := mt1, role_id := rid } ∧
    (create_match_type_role (create_match_type_role db g mt1 rid).2 g mt2 rid).1 =
      .ok { id := (create_match_type_role db g mt1 rid).2.nextRoleId,
            guild_id := g, match_type := mt2, role_id := rid } ∧
    (∀ gid tc mid : Nat, ∀ ct : String, ∀ ca : Option Nat, ∀ now : Nat,
      ((insert_challenge db gid tc mid ct ca now).1).challenge_type = strLower ct) := by
  have e1 := create_match_type_role_free db g rid mt1 h1
  have hne' : (mt1 == mt2) = false := beq_eq_false_iff_ne.mpr hne
  have h2' : tripleExists (create_match_type_role db g mt1 rid).2 g mt2 rid = false := by
    rw [e1]
    unfold tripleExists at h2 ⊢
    simp [List.any_append, h2, hne']
  refine ⟨by rw [e1], ?_, fun gid tc mid ct ca now => rfl⟩
  rw [create_match_type_role_free _ g rid mt2 h2']

/-- Witness for C10: "Solo" and "solo" coexist as distinct mappings while
insert_challenge lower-cases "Solo Ultra". -/
theorem create_role_case_significant_witness :
    ("Solo" : String) ≠ "solo" ∧ strLower "Solo" = strLower "solo" ∧
    tripleExists exDbEmpty 1234 "Solo" 5678 = false ∧
    tripleExists exDbEmpty 1234 "solo" 5678 = false ∧
    (create_match_type_role exDbEmpty 1234 "Solo" 5678).1 =
      .ok { id := 1, guild_id := 1234, match_type := "Solo", role_id := 5678 } ∧
    (create_match_type_role
        (create_match_type_role exDbEmpty 1234 "Solo" 5678).2 1234 "solo" 5678).1 =
      .ok { id := 2, guild_id := 1234, match_type := "solo", role_id := 5678 } ∧
    ((insert_challenge exDbEmpty 1 2 3 "Solo Ultra" none 50).1).challenge_type =
      "solo ultra" := by
  have T := create_role_case_significant exDbEmpty 1234 5678 "Solo" "solo"
    (by decide) (by decide) rfl rfl
  exact ⟨by decide, by decide, rfl, rfl, T.1, T.2.1,
    (T.2.2 1 2 3 "Solo Ultra" none 50).trans (by decide)⟩
